import Mathlib

/-!
Verification development for the scoring and road-classification subsystem
of the driving-simulation repository.

Embedded components (shallow embedding, TypeScript → Lean):
- `PointSystem` (src/components/PointSystem.ts): the score state machine.
- `RealRoadDetector` (src/components/Car.ts, third module): the cached,
  remote-query road classifier, modelled as an explicit state-passing
  function; the asynchronous `Promise` is modelled by `Except Unit`,
  where `Except.error` stands for a rejected promise (a thrown error
  escaping the function).
- `ColorDetector` (src/components/ColorDetector.ts): the fallback layer
  with its sticky `fallbackMode` flag and the deterministic grid heuristic.

Numbers are modelled by `ℚ`.  The haversine `calculateDistance` uses
transcendental functions; since every claim constrains only the *value*
of that distance, the distance between consecutive positions enters the
embedding as an explicit parameter, with `0 ≤ dist` available as a
hypothesis because the haversine formula `R * c` (with `R > 0` and
`c = 2 * atan2 (sqrt a) (sqrt (1-a)) ≥ 0`) is always nonnegative.
-/

/-- Constants from src/config.ts (`CONFIG.POINTS` and `CONFIG.ROADS_API`). -/
def CONFIG.BASE_POINTS_PER_METER : ℚ := 5

/-- CONFIG.POINTS.MAX_SPEED_BONUS = 1.5. -/
def CONFIG.MAX_SPEED_BONUS : ℚ := 3/2

/-- CONFIG.POINTS.MAX_MULTIPLIER = 3. -/
def CONFIG.MAX_MULTIPLIER : ℚ := 3

/-- CONFIG.POINTS.MULTIPLIER_INCREASE_TIME = 8 seconds. -/
def CONFIG.MULTIPLIER_INCREASE_TIME : ℚ := 8

/-- CONFIG.POINTS.OFF_ROAD_PENALTY = 5 points per meter. -/
def CONFIG.OFF_ROAD_PENALTY : ℚ := 5

/-- CONFIG.ROADS_API.CACHE_TIMEOUT = 30000 ms. -/
def CONFIG.CACHE_TIMEOUT : ℚ := 30000

/-- CONFIG.ROADS_API.ROAD_TOLERANCE = 10 meters. -/
def CONFIG.ROAD_TOLERANCE : ℚ := 10

/-- The mutable fields of the `PointSystem` class (PointSystem.ts, lines 4-9).
`warningElement` and the DOM are presentation only and not modelled. -/
structure ScoreState where
  points : ℚ
  isOnRoad : Bool
  lastPosition : Option (ℚ × ℚ)
  pointMultiplier : ℚ
  consecutiveRoadTime : ℚ
  totalDistanceOnRoad : ℚ
  deriving DecidableEq, Repr

/-- Field initializers of `PointSystem` (PointSystem.ts, lines 4-9). -/
def PointSystem.init : ScoreState :=
  { points := 0, isOnRoad := false, lastPosition := none,
    pointMultiplier := 1, consecutiveRoadTime := 0, totalDistanceOnRoad := 0 }

/-- `PointSystem.update` (PointSystem.ts, lines 104-141), with the DOM update
dropped.  `dist` is the value `calculateDistance(this.lastPosition, carPosition)`
computed in the source; it is only consulted when `lastPosition` is set. -/
def PointSystem.update (s : ScoreState) (carPosition : ℚ × ℚ) (dist : ℚ)
    (onRoad : Bool) (speed deltaTime : ℚ) : ScoreState :=
  let s' :=
    match s.lastPosition with
    | none => s
    | some _ =>
      if 1/10000 < dist then
        if onRoad then
          let basePoints := dist * CONFIG.BASE_POINTS_PER_METER
          let speedBonus := min (speed / 5) CONFIG.MAX_SPEED_BONUS
          let pointsEarned : ℤ := ⌊basePoints * s.pointMultiplier * speedBonus⌋
          let crt := s.consecutiveRoadTime + deltaTime
          if CONFIG.MULTIPLIER_INCREASE_TIME < crt then
            { s with points := s.points + (pointsEarned : ℚ),
                     totalDistanceOnRoad := s.totalDistanceOnRoad + dist,
                     pointMultiplier := min (s.pointMultiplier + 1/10) CONFIG.MAX_MULTIPLIER,
                     consecutiveRoadTime := 0 }
          else
            { s with points := s.points + (pointsEarned : ℚ),
                     totalDistanceOnRoad := s.totalDistanceOnRoad + dist,
                     consecutiveRoadTime := crt }
        else
          let penaltyPoints := dist * CONFIG.OFF_ROAD_PENALTY
          { s with points := max 0 (s.points - ((⌊penaltyPoints⌋ : ℤ) : ℚ)),
                   pointMultiplier := 1,
                   consecutiveRoadTime := 0 }
      else s
  { s' with lastPosition := some carPosition, isOnRoad := onRoad }

/-- `PointSystem.reset` (PointSystem.ts, lines 209-216); it does not touch
the `isOnRoad` field. -/
def PointSystem.reset (s : ScoreState) : ScoreState :=
  { s with points := 0, pointMultiplier := 1, lastPosition := none,
           consecutiveRoadTime := 0, totalDistanceOnRoad := 0 }

/-- Reachable score states: the initial state, any update step, and reset.
The step records the code-derived facts about the inputs: the distance is a
haversine value, hence nonnegative, and the speed supplied by the tick loop
(index.ts) is clamped to be nonnegative before `update` is called. -/
inductive PointSystem.Reach : ScoreState → Prop
  | init : PointSystem.Reach PointSystem.init
  | step (s : ScoreState) (pos : ℚ × ℚ) (dist : ℚ) (onRoad : Bool) (speed dt : ℚ)
      (hr : PointSystem.Reach s) (hd : 0 ≤ dist) (hs : 0 ≤ speed) :
      PointSystem.Reach (PointSystem.update s pos dist onRoad speed dt)
  | reset (s : ScoreState) (hr : PointSystem.Reach s) :
      PointSystem.Reach (PointSystem.reset s)

lemma PointSystem.update_no_last {s : ScoreState} (pos : ℚ × ℚ) (dist : ℚ)
    (onRoad : Bool) (speed dt : ℚ) (hlast : s.lastPosition = none) :
    PointSystem.update s pos dist onRoad speed dt =
      { s with lastPosition := some pos, isOnRoad := onRoad } := by
  unfold PointSystem.update
  rw [hlast]

lemma PointSystem.update_no_move {s : ScoreState} {p : ℚ × ℚ} (pos : ℚ × ℚ) {dist : ℚ}
    (onRoad : Bool) (speed dt : ℚ) (hlast : s.lastPosition = some p)
    (hsmall : ¬ 1/10000 < dist) :
    PointSystem.update s pos dist onRoad speed dt =
      { s with lastPosition := some pos, isOnRoad := onRoad } := by
  unfold PointSystem.update
  rw [hlast]
  simp only [if_neg hsmall]

lemma PointSystem.update_onroad_moved {s : ScoreState} {p : ℚ × ℚ} (pos : ℚ × ℚ)
    {dist : ℚ} (speed dt : ℚ) (hlast : s.lastPosition = some p)
    (hmoved : 1/10000 < dist) :
    PointSystem.update s pos dist true speed dt =
      (if CONFIG.MULTIPLIER_INCREASE_TIME < s.consecutiveRoadTime + dt then
        { s with
            points := s.points + ((⌊dist * CONFIG.BASE_POINTS_PER_METER *
              s.pointMultiplier * min (speed / 5) CONFIG.MAX_SPEED_BONUS⌋ : ℤ) : ℚ),
            totalDistanceOnRoad := s.totalDistanceOnRoad + dist,
            pointMultiplier := min (s.pointMultiplier + 1/10) CONFIG.MAX_MULTIPLIER,
            consecutiveRoadTime := 0,
            lastPosition := some pos, isOnRoad := true }
      else
        { s with
            points := s.points + ((⌊dist * CONFIG.BASE_POINTS_PER_METER *
              s.pointMultiplier * min (speed / 5) CONFIG.MAX_SPEED_BONUS⌋ : ℤ) : ℚ),
            totalDistanceOnRoad := s.totalDistanceOnRoad + dist,
            consecutiveRoadTime := s.consecutiveRoadTime + dt,
            lastPosition := some pos, isOnRoad := true }) := by
  unfold PointSystem.update
  rw [hlast]
  by_cases hcrt : CONFIG.MULTIPLIER_INCREASE_TIME < s.consecutiveRoadTime + dt
  · simp only [if_pos hmoved, if_pos hcrt, if_true]
  · simp only [if_pos hmoved, if_neg hcrt, if_true]

lemma PointSystem.update_offroad_moved {s : ScoreState} {p : ℚ × ℚ} (pos : ℚ × ℚ)
    {dist : ℚ} (speed dt : ℚ) (hlast : s.lastPosition = some p)
    (hmoved : 1/10000 < dist) :
    PointSystem.update s pos dist false speed dt =
      { s with
          points := max 0 (s.points - ((⌊dist * CONFIG.OFF_ROAD_PENALTY⌋ : ℤ) : ℚ)),
          pointMultiplier := 1,
          consecutiveRoadTime := 0,
          lastPosition := some pos, isOnRoad := false } := by
  unfold PointSystem.update
  rw [hlast]
  simp only [if_pos hmoved]
  rfl

/-- Rounding of `x.toFixed(5)` read back as an integer number of 1e-5 units:
round half away from zero, the rounding rule of `toFixed` on exact decimal
inputs.  Two coordinates share a cache key exactly when both components
round to the same value. -/
def jsRound5 (x : ℚ) : ℤ :=
  if 0 ≤ x then ⌊x * 100000 + 1/2⌋ else -⌊-x * 100000 + 1/2⌋

/-- The cache key built in `RealRoadDetector.isOnRoad` (Car.ts):
both coordinates rounded to 5 decimal places. -/
def cacheKey (lat lng : ℚ) : ℤ × ℤ := (jsRound5 lat, jsRound5 lng)

/-- The mutable fields of `RealRoadDetector` (Car.ts): the two `Map`s
(modelled as association lists whose `set` conses a fresh binding, which
has the same `lookup` behaviour) and the runtime-adjustable tolerance. -/
structure DetectorState where
  cache : List ((ℤ × ℤ) × Bool)
  lastCacheTime : List ((ℤ × ℤ) × ℚ)
  roadTolerance : ℚ
  deriving DecidableEq, Repr

/-- Initial `RealRoadDetector` state: empty maps, tolerance from CONFIG. -/
def RealRoadDetector.init : DetectorState :=
  { cache := [], lastCacheTime := [], roadTolerance := CONFIG.ROAD_TOLERANCE }

/-- `RealRoadDetector.isCacheValid` (Car.ts, lines 237-242): the source's
`if (!lastTime) return false` is a falsy check, so both an absent timestamp
and a stored timestamp of exactly 0 count as a cache miss; otherwise the
key is valid when `now - lastTime < cacheTimeout` (30000 ms). -/
def RealRoadDetector.isCacheValid (s : DetectorState) (key : ℤ × ℤ) (now : ℚ) : Bool :=
  match s.lastCacheTime.lookup key with
  | none => false
  | some t => if t == 0 then false else decide (now - t < CONFIG.CACHE_TIMEOUT)

/-- Environment of one remote nearest-roads query: the `fetch` either
resolves with a parsed response (`ok hasSnapped`, where `hasSnapped` says
whether `data.snappedPoints` is nonempty), resolves non-2xx (`httpError`),
is aborted by the 5 s timeout (`aborted`), or rejects with a transport
error (`netError`). -/
inductive FetchOutcome
  | ok (hasSnapped : Bool)
  | httpError
  | aborted
  | netError
  deriving DecidableEq, Repr

/-- The `try` block of `RealRoadDetector.isOnRoad` (Car.ts, lines 176-230).
`Except.error` is a thrown/rejected await (abort or transport error);
`snapDist` is the haversine `calculateDistance` value between the query
point and `snappedPoints[0]`, a parameter for the same reason as in
`PointSystem.update`.  Only the two parsed-response paths write the cache. -/
def RealRoadDetector.tryBody (s : DetectorState) (key : ℤ × ℤ) (now : ℚ)
    (outcome : FetchOutcome) (snapDist : ℚ) : Except Unit (Bool × DetectorState) :=
  match outcome with
  | .aborted => .error ()
  | .netError => .error ()
  | .httpError => .ok (false, s)
  | .ok true =>
    let onRoad := decide (snapDist ≤ s.roadTolerance)
    .ok (onRoad, { s with cache := (key, onRoad) :: s.cache,
                          lastCacheTime := (key, now) :: s.lastCacheTime })
  | .ok false =>
    .ok (false, { s with cache := (key, false) :: s.cache,
                         lastCacheTime := (key, now) :: s.lastCacheTime })

/-- `RealRoadDetector.isOnRoad` (Car.ts, lines 167-235).  Returns the
resolved boolean, the new detector state, and whether a remote query was
issued (false exactly on the cache-hit early return, which models
`return this.cache.get(cacheKey) || false`).  The `catch` clause is the
`Except.error` arm: it absorbs the rejection and resolves `false`. -/
def RealRoadDetector.isOnRoad (s : DetectorState) (lat lng now : ℚ)
    (outcome : FetchOutcome) (snapDist : ℚ) : Except Unit (Bool × DetectorState × Bool) :=
  let key := cacheKey lat lng
  if RealRoadDetector.isCacheValid s key now then
    .ok ((s.cache.lookup key).getD false, s, false)
  else
    match RealRoadDetector.tryBody s key now outcome snapDist with
    | .ok (b, s') => .ok (b, s', true)
    | .error _ => .ok (false, s, true)

/-- The mutable field of `ColorDetector` (ColorDetector.ts, line 6). -/
structure ColorState where
  fallbackMode : Bool
  deriving DecidableEq, Repr

/-- `ColorDetector.isInFallbackMode` (ColorDetector.ts, lines 104-107). -/
def ColorDetector.isInFallbackMode (cd : ColorState) : Bool :=
  cd.fallbackMode

/-- The remainder operator of the source language: truncated division,
result carrying the sign of the dividend (`-5 % 10 = -5`, `-6 % 2 = 0`). -/
def jsRem (a b : ℤ) : ℤ :=
  if 0 ≤ a then a % b else -((-a) % b)

/-- `ColorDetector.fallbackRoadDetection` (ColorDetector.ts, lines 85-102),
for a present map center (the `!center` early return cannot fire once the
map exists); the unused `zoom` read is dropped.  `Math.floor` on the scaled
offsets, source-language `%`, and strict `===` comparisons. -/
def ColorDetector.fallbackRoadDetection (lat lng centerLat centerLng : ℚ) : Bool :=
  let latGrid := jsRem ⌊(lat - centerLat) * 10000⌋ 10
  let lngGrid := jsRem ⌊(lng - centerLng) * 10000⌋ 10
  let isMainRoad := latGrid == 0 || lngGrid == 0 || latGrid == 5 || lngGrid == 5
  let isSmallRoad := jsRem latGrid 2 == 0 || jsRem lngGrid 2 == 0
  isMainRoad || isSmallRoad

/-- Modelled from the claim's words, for comparison with the source
definition: grid cells taken "modulo 10" with mathematical congruence
(`Int.emod`, always nonnegative here), on-road when either grid value is
congruent to 0 or 5 mod 10 or either is even. -/
def ColorDetector.fallbackRoadDetectionSpec (lat lng centerLat centerLng : ℚ) : Bool :=
  let latGrid := ⌊(lat - centerLat) * 10000⌋ % 10
  let lngGrid := ⌊(lng - centerLng) * 10000⌋ % 10
  (latGrid == 0 || lngGrid == 0 || latGrid == 5 || lngGrid == 5) ||
    (latGrid % 2 == 0 || lngGrid % 2 == 0)

/-- `ColorDetector.isOnRoad` (ColorDetector.ts, lines 72-82): awaits the
real detector; its `catch` clause (which sets the sticky `fallbackMode`
flag and answers from `fallbackRoadDetection`) only fires when that await
rejects. -/
def ColorDetector.isOnRoad (cd : ColorState) (s : DetectorState) (lat lng now : ℚ)
    (outcome : FetchOutcome) (snapDist : ℚ) (centerLat centerLng : ℚ) :
    Except Unit (Bool × ColorState × DetectorState) :=
  match RealRoadDetector.isOnRoad s lat lng now outcome snapDist with
  | .ok (b, s', _) => .ok (b, cd, s')
  | .error _ =>
    .ok (ColorDetector.fallbackRoadDetection lat lng centerLat centerLng,
         { fallbackMode := true }, s)

/-- The state invariant of the score engine: points are a nonnegative
integer and the multiplier stays in `[1, 3]`. -/
def ScoreInv (s : ScoreState) : Prop :=
  0 ≤ s.points ∧ (∃ k : ℤ, (k : ℚ) = s.points) ∧
    1 ≤ s.pointMultiplier ∧ s.pointMultiplier ≤ 3

lemma scoreInv_init : ScoreInv PointSystem.init := by
  refine ⟨le_refl 0, ⟨0, by norm_num [PointSystem.init]⟩, ?_, ?_⟩ <;> norm_num [PointSystem.init]

lemma speedBonus_nonneg {speed : ℚ} (hs : 0 ≤ speed) :
    0 ≤ min (speed / 5) CONFIG.MAX_SPEED_BONUS :=
  le_min (by positivity) (by norm_num [CONFIG.MAX_SPEED_BONUS])

lemma pointsEarned_nonneg (mult : ℚ) {dist speed : ℚ} (hd : 0 ≤ dist) (hm : 0 ≤ mult)
    (hs : 0 ≤ speed) :
    0 ≤ ⌊dist * CONFIG.BASE_POINTS_PER_METER * mult * min (speed / 5) CONFIG.MAX_SPEED_BONUS⌋ :=
  Int.floor_nonneg.mpr <| by
    have h5 : (0:ℚ) ≤ CONFIG.BASE_POINTS_PER_METER := by norm_num [CONFIG.BASE_POINTS_PER_METER]
    exact mul_nonneg (mul_nonneg (mul_nonneg hd h5) hm) (speedBonus_nonneg hs)

lemma scoreInv_update {s : ScoreState} (h : ScoreInv s) (pos : ℚ × ℚ) {dist : ℚ}
    (onRoad : Bool) {speed : ℚ} (dt : ℚ) (hd : 0 ≤ dist) (hs : 0 ≤ speed) :
    ScoreInv (PointSystem.update s pos dist onRoad speed dt) := by
  obtain ⟨hp, ⟨k, hk⟩, hm1, hm3⟩ := h
  unfold PointSystem.update ScoreInv
  cases hl : s.lastPosition with
  | none => exact ⟨hp, ⟨k, hk⟩, hm1, hm3⟩
  | some p =>
    by_cases hmoved : 1/10000 < dist
    · simp only [if_pos hmoved]
      cases onRoad with
      | true =>
        have hE := pointsEarned_nonneg s.pointMultiplier hd (by linarith) hs
        by_cases hcrt : CONFIG.MULTIPLIER_INCREASE_TIME < s.consecutiveRoadTime + dt
        · simp only [if_pos hcrt, Bool.cond_true]
          refine ⟨add_nonneg hp (by exact_mod_cast hE), ⟨k + _, by push_cast [hk]; ring⟩, ?_, ?_⟩
          · exact le_min (by linarith) (by norm_num [CONFIG.MAX_MULTIPLIER])
          · exact min_le_right _ _
        · simp only [if_neg hcrt, Bool.cond_true]
          exact ⟨add_nonneg hp (by exact_mod_cast hE), ⟨k + _, by push_cast [hk]; ring⟩, hm1, hm3⟩
      | false =>
        have hpen : (0:ℤ) ≤ ⌊dist * CONFIG.OFF_ROAD_PENALTY⌋ :=
          Int.floor_nonneg.mpr (by norm_num [CONFIG.OFF_ROAD_PENALTY]; linarith)
        refine ⟨le_max_left _ _, ⟨max 0 (k - ⌊dist * CONFIG.OFF_ROAD_PENALTY⌋), ?_⟩, ?_, ?_⟩
        · push_cast [hk]; rfl
        · norm_num
        · norm_num
    · simp only [if_neg hmoved]
      exact ⟨hp, ⟨k, hk⟩, hm1, hm3⟩

lemma scoreInv_reset {s : ScoreState} (_ : ScoreInv s) : ScoreInv (PointSystem.reset s) := by
  refine ⟨le_refl 0, ⟨0, by norm_num [PointSystem.reset]⟩, ?_, ?_⟩ <;>
    norm_num [PointSystem.reset]

lemma reach_scoreInv {s : ScoreState} (h : PointSystem.Reach s) : ScoreInv s := by
  induction h with
  | init => exact scoreInv_init
  | step s pos dist onRoad speed dt hr hd hs ih => exact scoreInv_update ih pos onRoad dt hd hs
  | reset s hr ih => exact scoreInv_reset ih

/-- C1 counterexample: a streak whose on-road `deltaTime` accumulates to
exactly 8.0 s (at least 8.0 s, as the claim is stated) does not increase
the multiplier, because the code tests `consecutiveRoadTime >
MULTIPLIER_INCREASE_TIME` strictly: after the baseline call, one on-road
moving call with `deltaTime = 8` leaves the multiplier at 1 and the
accumulator at 8. -/
theorem multiplier_not_increased_at_exact_8s :
    (PointSystem.update (PointSystem.update PointSystem.init (0, 0) 0 true 5 1)
      (1, 1) 100 true 5 8).pointMultiplier = 1 ∧
    (PointSystem.update (PointSystem.update PointSystem.init (0, 0) 0 true 5 1)
      (1, 1) 100 true 5 8).consecutiveRoadTime = 8 := by
  norm_num [PointSystem.update, PointSystem.init, CONFIG.MULTIPLIER_INCREASE_TIME,
    CONFIG.BASE_POINTS_PER_METER, CONFIG.MAX_SPEED_BONUS]

/-- C1 (amended): on an on-road update that moves more than the noise
threshold, the multiplier increases by exactly 0.1 (clamped at
MAX_MULTIPLIER = 3) and the accumulator resets to 0 exactly when the
accumulated on-road time strictly exceeds 8.0 s; when the accumulated time
is at most 8.0 s (including exactly 8.0 s) the multiplier is unchanged and
the accumulator keeps the accumulated value. -/
theorem multiplier_increase_strict_threshold (s : ScoreState) (p pos : ℚ × ℚ)
    (dist speed dt : ℚ) (hlast : s.lastPosition = some p) (hmoved : 1/10000 < dist) :
    (8 < s.consecutiveRoadTime + dt →
      (PointSystem.update s pos dist true speed dt).pointMultiplier =
        min (s.pointMultiplier + 1/10) 3 ∧
      (PointSystem.update s pos dist true speed dt).consecutiveRoadTime = 0) ∧
    (s.consecutiveRoadTime + dt ≤ 8 →
      (PointSystem.update s pos dist true speed dt).pointMultiplier = s.pointMultiplier ∧
      (PointSystem.update s pos dist true speed dt).consecutiveRoadTime =
        s.consecutiveRoadTime + dt) := by
  constructor
  · intro h
    rw [PointSystem.update_onroad_moved pos speed dt hlast hmoved,
      if_pos (show CONFIG.MULTIPLIER_INCREASE_TIME < s.consecutiveRoadTime + dt by
        rw [CONFIG.MULTIPLIER_INCREASE_TIME]; exact h)]
    norm_num [CONFIG.MAX_MULTIPLIER]
  · intro h
    rw [PointSystem.update_onroad_moved pos speed dt hlast hmoved,
      if_neg (show ¬ CONFIG.MULTIPLIER_INCREASE_TIME < s.consecutiveRoadTime + dt by
        rw [CONFIG.MULTIPLIER_INCREASE_TIME]; exact not_lt.mpr h)]
    exact ⟨rfl, rfl⟩

/-- Witness for the amended C1 theorem at a concrete state and inputs. -/
theorem multiplier_increase_strict_threshold_witness :
    (PointSystem.update { PointSystem.init with lastPosition := some (0, 0) }
      (1, 1) 100 true 5 9).pointMultiplier = min ((1:ℚ) + 1/10) 3 ∧
    (PointSystem.update { PointSystem.init with lastPosition := some (0, 0) }
      (1, 1) 100 true 5 9).consecutiveRoadTime = 0 :=
  (multiplier_increase_strict_threshold
    { PointSystem.init with lastPosition := some (0, 0) } (0, 0) (1, 1) 100 5 9
    rfl (by norm_num)).1 (by norm_num [PointSystem.init])

/-- C2 (confirmed): in every reachable score state the points total is a
nonnegative integer; moreover a single update step with an on-road
classification never decreases points, and one with an off-road
classification never increases them and leaves them nonnegative — under
the code-derived facts that the distance (a haversine value) is
nonnegative, the caller-supplied speed is nonnegative, and the state's
points and multiplier are nonnegative (as in every reachable state). -/
theorem points_nonneg_integer_and_monotone :
    (∀ s : ScoreState, PointSystem.Reach s →
      0 ≤ s.points ∧ ∃ k : ℤ, (k : ℚ) = s.points) ∧
    (∀ (s : ScoreState) (pos : ℚ × ℚ) (dist speed dt : ℚ),
      0 ≤ dist → 0 ≤ speed → 0 ≤ s.points → 0 ≤ s.pointMultiplier →
      (s.points ≤ (PointSystem.update s pos dist true speed dt).points ∧
       (PointSystem.update s pos dist false speed dt).points ≤ s.points ∧
       0 ≤ (PointSystem.update s pos dist false speed dt).points)) := by
  constructor
  · intro s hs
    obtain ⟨hp, hk, -, -⟩ := reach_scoreInv hs
    exact ⟨hp, hk⟩
  · intro s pos dist speed dt hd hs hp hm
    cases hl : s.lastPosition with
    | none =>
      rw [PointSystem.update_no_last pos dist true speed dt hl,
        PointSystem.update_no_last pos dist false speed dt hl]
      exact ⟨le_refl _, le_refl _, hp⟩
    | some p =>
      by_cases hmoved : 1/10000 < dist
      · have hE := pointsEarned_nonneg s.pointMultiplier hd hm hs
        have hEq : (0:ℚ) ≤ ((⌊dist * CONFIG.BASE_POINTS_PER_METER * s.pointMultiplier *
            min (speed / 5) CONFIG.MAX_SPEED_BONUS⌋ : ℤ) : ℚ) := by exact_mod_cast hE
        have hpen : (0:ℤ) ≤ ⌊dist * CONFIG.OFF_ROAD_PENALTY⌋ :=
          Int.floor_nonneg.mpr (by norm_num [CONFIG.OFF_ROAD_PENALTY]; linarith)
        have hpenq : (0:ℚ) ≤ ((⌊dist * CONFIG.OFF_ROAD_PENALTY⌋ : ℤ) : ℚ) := by
          exact_mod_cast hpen
        refine ⟨?_, ?_, ?_⟩
        · rw [PointSystem.update_onroad_moved pos speed dt hl hmoved]
          by_cases hcrt : CONFIG.MULTIPLIER_INCREASE_TIME < s.consecutiveRoadTime + dt
          · rw [if_pos hcrt]; exact le_add_of_nonneg_right hEq
          · rw [if_neg hcrt]; exact le_add_of_nonneg_right hEq
        · rw [PointSystem.update_offroad_moved pos speed dt hl hmoved]
          exact max_le hp (by linarith)
        · rw [PointSystem.update_offroad_moved pos speed dt hl hmoved]
          exact le_max_left _ _
      · rw [PointSystem.update_no_move pos true speed dt hl hmoved,
          PointSystem.update_no_move pos false speed dt hl hmoved]
        exact ⟨le_refl _, le_refl _, hp⟩

/-- Witness for C2 at the initial state and a concrete update step. -/
theorem points_nonneg_integer_and_monotone_witness :
    (0 ≤ PointSystem.init.points ∧ ∃ k : ℤ, (k : ℚ) = PointSystem.init.points) ∧
    0 ≤ (PointSystem.update PointSystem.init (1, 1) 100 false 5 1).points :=
  ⟨points_nonneg_integer_and_monotone.1 PointSystem.init PointSystem.Reach.init,
   (points_nonneg_integer_and_monotone.2 PointSystem.init (1, 1) 100 5 1
     (by norm_num) (by norm_num) (by norm_num [PointSystem.init])
     (by norm_num [PointSystem.init])).2.2⟩

/-- C3 counterexample: an update call carrying an off-road sample does not
always reset the multiplier to 1.0 — the off-road branch only runs when the
car moved more than the 0.0001 m noise threshold.  From the initial state,
a baseline call, then a moving on-road call with 9 s of on-road time raises
the multiplier to 1.1; a subsequent stationary (distance 0) off-road call
is reachable and leaves the multiplier at 1.1, not 1.0. -/
theorem offroad_stationary_keeps_multiplier :
    PointSystem.Reach
      (PointSystem.update (PointSystem.update PointSystem.init (0, 0) 0 true 5 1)
        (1, 1) 100 true 5 9) ∧
    (PointSystem.update
      (PointSystem.update (PointSystem.update PointSystem.init (0, 0) 0 true 5 1)
        (1, 1) 100 true 5 9)
      (1, 1) 0 false 5 1).pointMultiplier = 11/10 := by
  constructor
  · exact PointSystem.Reach.step _ (1, 1) 100 true 5 9
      (PointSystem.Reach.step _ (0, 0) 0 true 5 1 PointSystem.Reach.init
        (by norm_num) (by norm_num))
      (by norm_num) (by norm_num)
  · norm_num [PointSystem.update, PointSystem.init, CONFIG.MULTIPLIER_INCREASE_TIME,
      CONFIG.MAX_MULTIPLIER, CONFIG.BASE_POINTS_PER_METER, CONFIG.MAX_SPEED_BONUS]

/-- C3 (amended): in every reachable score state the multiplier lies in
[1.0, 3.0]; and every update call carrying an off-road sample that has a
stored previous position and moves more than the 0.0001 m noise threshold
sets the multiplier to exactly 1.0 and the consecutive-road accumulator to
0 (stationary off-road samples and the baseline-recording first call leave
both untouched). -/
theorem multiplier_bounds_and_offroad_reset :
    (∀ s : ScoreState, PointSystem.Reach s →
      1 ≤ s.pointMultiplier ∧ s.pointMultiplier ≤ 3) ∧
    (∀ (s : ScoreState) (p pos : ℚ × ℚ) (dist speed dt : ℚ),
      s.lastPosition = some p → 1/10000 < dist →
      (PointSystem.update s pos dist false speed dt).pointMultiplier = 1 ∧
      (PointSystem.update s pos dist false speed dt).consecutiveRoadTime = 0) := by
  constructor
  · intro s hs
    obtain ⟨-, -, hm1, hm3⟩ := reach_scoreInv hs
    exact ⟨hm1, hm3⟩
  · intro s p pos dist speed dt hlast hmoved
    rw [PointSystem.update_offroad_moved pos speed dt hlast hmoved]
    exact ⟨rfl, rfl⟩

/-- Witness for C3 at the initial state and a concrete off-road step. -/
theorem multiplier_bounds_and_offroad_reset_witness :
    (1 ≤ PointSystem.init.pointMultiplier ∧ PointSystem.init.pointMultiplier ≤ 3) ∧
    (PointSystem.update { PointSystem.init with lastPosition := some (0, 0) }
      (1, 1) 50 false 5 1).pointMultiplier = 1 :=
  ⟨multiplier_bounds_and_offroad_reset.1 PointSystem.init PointSystem.Reach.init,
   (multiplier_bounds_and_offroad_reset.2
     { PointSystem.init with lastPosition := some (0, 0) } (0, 0) (1, 1) 50 5 1
     rfl (by norm_num)).1⟩

/-- C4 (confirmed): a call whose distance from the stored previous position
is at most the 0.0001 m noise threshold changes neither points, multiplier,
nor total on-road distance, yet still overwrites the stored position with
the new one and the on-road flag with the new classification. -/
theorem update_noise_frame (s : ScoreState) (p pos : ℚ × ℚ) (dist : ℚ)
    (onRoad : Bool) (speed dt : ℚ) (hlast : s.lastPosition = some p)
    (hsmall : dist ≤ 1/10000) :
    (PointSystem.update s pos dist onRoad speed dt).points = s.points ∧
    (PointSystem.update s pos dist onRoad speed dt).pointMultiplier = s.pointMultiplier ∧
    (PointSystem.update s pos dist onRoad speed dt).totalDistanceOnRoad =
      s.totalDistanceOnRoad ∧
    (PointSystem.update s pos dist onRoad speed dt).lastPosition = some pos ∧
    (PointSystem.update s pos dist onRoad speed dt).isOnRoad = onRoad := by
  rw [PointSystem.update_no_move pos onRoad speed dt hlast (not_lt.mpr hsmall)]
  exact ⟨rfl, rfl, rfl, rfl, rfl⟩

/-- Witness for C4 at a concrete state with a 0.00005 m jitter sample. -/
theorem update_noise_frame_witness :
    (PointSystem.update { PointSystem.init with lastPosition := some (0, 0) }
      (1, 1) (1/20000) true 5 1).points = PointSystem.init.points ∧
    (PointSystem.update { PointSystem.init with lastPosition := some (0, 0) }
      (1, 1) (1/20000) true 5 1).isOnRoad = true := by
  have h := update_noise_frame { PointSystem.init with lastPosition := some (0, 0) }
    (0, 0) (1, 1) (1/20000) true 5 1 rfl (by norm_num)
  exact ⟨h.1, h.2.2.2.2⟩

/-- C5 (confirmed): from any state with a stored previous position and
multiplier 1.0, one update call that moves 100 m on-road at speed 5 with
deltaTime 1 s adds exactly floor(100 * 5 * 1.0 * min(5/5, 1.5)) = 500
points and adds exactly 100 m to the total on-road distance. -/
theorem update_100m_scenario (s : ScoreState) (p pos : ℚ × ℚ)
    (hlast : s.lastPosition = some p) (hmult : s.pointMultiplier = 1) :
    (PointSystem.update s pos 100 true 5 1).points = s.points + 500 ∧
    (PointSystem.update s pos 100 true 5 1).totalDistanceOnRoad =
      s.totalDistanceOnRoad + 100 := by
  rw [PointSystem.update_onroad_moved pos 5 1 hlast (by norm_num)]
  by_cases hcrt : CONFIG.MULTIPLIER_INCREASE_TIME < s.consecutiveRoadTime + 1
  · rw [if_pos hcrt]
    refine ⟨?_, rfl⟩
    show s.points + _ = s.points + 500
    norm_num [hmult, CONFIG.BASE_POINTS_PER_METER, CONFIG.MAX_SPEED_BONUS]
  · rw [if_neg hcrt]
    refine ⟨?_, rfl⟩
    show s.points + _ = s.points + 500
    norm_num [hmult, CONFIG.BASE_POINTS_PER_METER, CONFIG.MAX_SPEED_BONUS]

/-- Witness for C5 at a concrete baseline state. -/
theorem update_100m_scenario_witness :
    (PointSystem.update { PointSystem.init with lastPosition := some (0, 0) }
      (1, 1) 100 true 5 1).points =
      { PointSystem.init with lastPosition := some (0, 0) }.points + 500 :=
  (update_100m_scenario { PointSystem.init with lastPosition := some (0, 0) }
    (0, 0) (1, 1) rfl rfl).1

/-- C7 counterexample: a timed-out remote query (the abort fires) does not
flip the sticky fallback flag: `RealRoadDetector.isOnRoad` catches the
abort itself and resolves `false`, so `ColorDetector.isOnRoad`'s catch —
the only place that sets `fallbackMode` — never runs.  With the flag
initially false, the call resolves `false` with the flag still false, and
`isInFallbackMode()` returns `false`, not `true` as the claim states. -/
theorem timeout_leaves_fallback_flag_false :
    ColorDetector.isOnRoad ⟨false⟩ RealRoadDetector.init 0 0 0 .aborted 0 0 0 =
      .ok (false, ⟨false⟩, RealRoadDetector.init) ∧
    ColorDetector.isInFallbackMode ⟨false⟩ = false := by
  constructor
  · simp [ColorDetector.isOnRoad, RealRoadDetector.isOnRoad,
      RealRoadDetector.isCacheValid, RealRoadDetector.init, RealRoadDetector.tryBody]
  · rfl

/-- C7 (amended): when the remote query is aborted by the request timeout
(and the key is not served from the cache), the classification resolves
`false`; the detector state and the `ColorDetector` state are unchanged, so
the sticky fallback-mode flag keeps its previous value and a subsequent
`isInFallbackMode()` read returns that previous value — the timeout path
never sets the flag.  (The "within ≈5 s" real-time bound is outside this
model.) -/
theorem timeout_resolves_false_flag_unchanged (cd : ColorState) (s : DetectorState)
    (lat lng now snapDist clat clng : ℚ)
    (hmiss : ¬ RealRoadDetector.isCacheValid s (cacheKey lat lng) now = true) :
    ColorDetector.isOnRoad cd s lat lng now .aborted snapDist clat clng =
      .ok (false, cd, s) ∧
    ColorDetector.isInFallbackMode cd = cd.fallbackMode := by
  constructor
  · simp [ColorDetector.isOnRoad, RealRoadDetector.isOnRoad,
      RealRoadDetector.tryBody, hmiss]
  · rfl

/-- Witness for the amended C7 theorem, with the flag previously set to
true to exhibit that it is read back unchanged. -/
theorem timeout_resolves_false_flag_unchanged_witness :
    ColorDetector.isOnRoad ⟨true⟩ RealRoadDetector.init 0 0 0 .aborted 0 0 0 =
      .ok (false, ⟨true⟩, RealRoadDetector.init) ∧
    ColorDetector.isInFallbackMode ⟨true⟩ = ColorState.fallbackMode ⟨true⟩ :=
  timeout_resolves_false_flag_unchanged ⟨true⟩ RealRoadDetector.init 0 0 0 0 0 0
    (by simp [RealRoadDetector.isCacheValid, RealRoadDetector.init])

/-- C8 (confirmed): for every coordinate, state, and fetch outcome —
including all three failure modes (non-2xx, timeout-abort, thrown transport
error) — both the road detector's promise and the top-level classification
promise resolve (`Except.ok`) with a boolean; no rejection propagates to
the caller.  The only `Except.error` producer is the try-block
(`RealRoadDetector.tryBody`), and both enclosing catch arms absorb it. -/
theorem classification_always_resolves (cd : ColorState) (s : DetectorState)
    (lat lng now : ℚ) (outcome : FetchOutcome) (snapDist clat clng : ℚ) :
    (∃ r, RealRoadDetector.isOnRoad s lat lng now outcome snapDist = .ok r) ∧
    (∃ r, ColorDetector.isOnRoad cd s lat lng now outcome snapDist clat clng = .ok r) := by
  have h1 : ∃ r, RealRoadDetector.isOnRoad s lat lng now outcome snapDist = .ok r := by
    unfold RealRoadDetector.isOnRoad
    by_cases hv : RealRoadDetector.isCacheValid s (cacheKey lat lng) now = true
    · rw [if_pos hv]; exact ⟨_, rfl⟩
    · rw [if_neg hv]
      cases outcome with
      | ok hasSnapped => cases hasSnapped <;> exact ⟨_, rfl⟩
      | httpError => exact ⟨_, rfl⟩
      | aborted => exact ⟨_, rfl⟩
      | netError => exact ⟨_, rfl⟩
  refine ⟨h1, ?_⟩
  obtain ⟨r, hr⟩ := h1
  unfold ColorDetector.isOnRoad
  rw [hr]
  exact ⟨_, rfl⟩

lemma jsRem_ten_eq_zero_iff (a : ℤ) : jsRem a 10 = 0 ↔ a % 10 = 0 := by
  unfold jsRem
  split <;> omega

lemma jsRem_ten_eq_five_iff (a : ℤ) : jsRem a 10 = 5 ↔ 0 ≤ a ∧ a % 10 = 5 := by
  unfold jsRem
  split <;> omega

lemma jsRem_ten_two_eq_zero_iff (a : ℤ) : jsRem (jsRem a 10) 2 = 0 ↔ a % 2 = 0 := by
  unfold jsRem
  split <;> split <;> omega

/-- C9 counterexample: at map center (0,0) and coordinate
(-0.0005, -0.0005), the scaled offsets floor to -5, so both grid values are
the source-language remainder -5 % 10 = -5: not strictly equal to 0 or 5
and with -5 % 2 = -1 ≠ 0, the code classifies off-road — while the claim's
formula (grid values taken modulo 10 with mathematical congruence, -5 ≡ 5)
classifies on-road. -/
theorem fallback_negative_offset_mismatch :
    ColorDetector.fallbackRoadDetection (-1/2000) (-1/2000) 0 0 = false ∧
    ColorDetector.fallbackRoadDetectionSpec (-1/2000) (-1/2000) 0 0 = true := by
  constructor
  · norm_num [ColorDetector.fallbackRoadDetection, jsRem]
  · norm_num [ColorDetector.fallbackRoadDetectionSpec]

/-- C9 (amended): the fallback heuristic is a deterministic function of the
coordinate and the map center, returning on-road exactly when, for
a = floor((lat − center.lat)·10000) or b = floor((lng − center.lng)·10000),
a or b is divisible by 10, a or b is even, or a or b is congruent to 5
modulo 10 *and nonnegative* — because the source-language `%` keeps the
dividend's sign, a negative offset with remainder -5 does not match the
strict `=== 5` test (negative even grid values still match `% 2 === 0`
since that remainder is -0 = 0). -/
theorem fallback_characterization (lat lng clat clng : ℚ) :
    ColorDetector.fallbackRoadDetection lat lng clat clng = true ↔
      (⌊(lat - clat) * 10000⌋ % 10 = 0 ∨ ⌊(lng - clng) * 10000⌋ % 10 = 0 ∨
       (0 ≤ ⌊(lat - clat) * 10000⌋ ∧ ⌊(lat - clat) * 10000⌋ % 10 = 5) ∨
       (0 ≤ ⌊(lng - clng) * 10000⌋ ∧ ⌊(lng - clng) * 10000⌋ % 10 = 5) ∨
       ⌊(lat - clat) * 10000⌋ % 2 = 0 ∨ ⌊(lng - clng) * 10000⌋ % 2 = 0) := by
  unfold ColorDetector.fallbackRoadDetection
  simp only [Bool.or_eq_true, beq_iff_eq, jsRem_ten_two_eq_zero_iff,
    jsRem_ten_eq_zero_iff, jsRem_ten_eq_five_iff]
  tauto

/-- C10 (confirmed): a single-coordinate classification whose remote query
fails (non-2xx, timeout-abort, or thrown transport error) and which was not
served from the cache resolves `false` and returns the detector state
exactly as it was; and in full generality, whenever a call changes the
detector state at all, its fetch outcome was a successfully parsed
response. -/
theorem failed_query_returns_false_state_unchanged (s : DetectorState)
    (lat lng now snapDist : ℚ) (outcome : FetchOutcome) :
    ((outcome = .httpError ∨ outcome = .aborted ∨ outcome = .netError) →
      ¬ RealRoadDetector.isCacheValid s (cacheKey lat lng) now = true →
      RealRoadDetector.isOnRoad s lat lng now outcome snapDist = .ok (false, s, true)) ∧
    (∀ b s' q, RealRoadDetector.isOnRoad s lat lng now outcome snapDist = .ok (b, s', q) →
      s' ≠ s → ∃ h, outcome = .ok h) := by
  constructor
  · rintro (rfl | rfl | rfl) hmiss <;>
      simp [RealRoadDetector.isOnRoad, RealRoadDetector.tryBody, hmiss]
  · intro b s' q heq hne
    by_cases hv : RealRoadDetector.isCacheValid s (cacheKey lat lng) now = true
    · unfold RealRoadDetector.isOnRoad at heq
      rw [if_pos hv] at heq
      cases heq
      exact absurd rfl hne
    · cases outcome with
      | ok hasSnapped => exact ⟨hasSnapped, rfl⟩
      | httpError =>
        unfold RealRoadDetector.isOnRoad at heq
        rw [if_neg hv] at heq
        cases heq
        exact absurd rfl hne
      | aborted =>
        unfold RealRoadDetector.isOnRoad at heq
        rw [if_neg hv] at heq
        cases heq
        exact absurd rfl hne
      | netError =>
        unfold RealRoadDetector.isOnRoad at heq
        rw [if_neg hv] at heq
        cases heq
        exact absurd rfl hne

/-- Witness for C10: a thrown transport error on an empty cache resolves
false with the state untouched. -/
theorem failed_query_returns_false_state_unchanged_witness :
    RealRoadDetector.isOnRoad RealRoadDetector.init 0 0 0 .netError 0 =
      .ok (false, RealRoadDetector.init, true) :=
  (failed_query_returns_false_state_unchanged RealRoadDetector.init 0 0 0 0 .netError).1
    (Or.inr (Or.inr rfl))
    (by simp [RealRoadDetector.isCacheValid, RealRoadDetector.init])
